import Mathlib

set_option maxRecDepth 100000

/-!
Verification development for the AnchorPQ example client
(`scripts/example-client.py`). Bytes are modelled as natural numbers below
256, byte strings as `List Nat`, and the process-wide source of randomness
(`secrets.token_bytes`) as an explicit stream argument that each call
consumes from the front. External cryptographic primitives (HMAC instances
used inside HKDF, AES-GCM) come from the `cryptography` library, not from
this repository, so they are passed in as an explicit environment of
opaque byte functions.
-/

namespace AnchorPQ

/-- Identifiers for the two hash functions the repository talks about:
the one the client's HKDF call actually passes (`hashes.SHA256()`) and the
SHA3-256 the docstring and the server documentation name. -/
inductive HashAlg
  | sha256
  | sha3_256
deriving DecidableEq

/-- The hash algorithm the client's `derive_aes_key` hands to HKDF: the
source instantiates `HKDF(algorithm=hashes.SHA256(), ...)`. -/
def client_kdf_hash : HashAlg := HashAlg.sha256

/-- Modelled from the spec: the hash of the server's documented key
derivation (HKDF-SHA3-256), which the client's own docstring also names;
the server implementation itself is not part of this source tree. -/
def server_kdf_hash : HashAlg := HashAlg.sha3_256

/-- Environment of external cryptographic primitives: HMAC keyed by each
hash (as used inside HKDF: arguments are key and message), and AES-GCM
encryption (key, nonce, plaintext to ciphertext with the tag embedded, as
the `cryptography` library's `AESGCM.encrypt` returns it). -/
structure CryptoEnv where
  hmac_sha256 : List Nat → List Nat → List Nat
  hmac_sha3_256 : List Nat → List Nat → List Nat
  aesgcm_encrypt : List Nat → List Nat → List Nat → List Nat

/-- `secrets.token_bytes(n)`: the next `n` bytes of the random stream,
together with the rest of the stream. -/
def token_bytes (n : Nat) (stream : List Nat) : List Nat × List Nat :=
  (stream.take n, stream.drop n)

/-- `simulate_mlkem_encapsulation(public_key_b64)`: draws 1088 random
bytes as the encapsulated key (ML-KEM-768 ciphertext size) and then 32
random bytes as the shared secret. The public-key argument is only
printed about, never read. Returns ((encapsulated_key, shared_secret),
rest of the random stream). -/
def simulate_mlkem_encapsulation (public_key_b64 : String) (stream : List Nat) :
    (List Nat × List Nat) × List Nat :=
  let r1 := token_bytes 1088 stream
  let r2 := token_bytes 32 r1.2
  ((r1.1, r2.1), r2.2)

/-- UTF-8 encoding of one character (models CPython's `str.encode('utf-8')`
on a code point). -/
def utf8Char (c : Char) : List Nat :=
  let n := c.toNat
  if n < 128 then [n]
  else if n < 2048 then [192 + n / 64, 128 + n % 64]
  else if n < 65536 then [224 + n / 4096, 128 + n / 64 % 64, 128 + n % 64]
  else [240 + n / 262144, 128 + n / 4096 % 64, 128 + n / 64 % 64, 128 + n % 64]

/-- UTF-8 encoding of a string as a byte list. -/
def utf8Bytes (s : String) : List Nat :=
  s.data.foldr (fun c acc => utf8Char c ++ acc) []

/-- The default `info` argument of `derive_aes_key`:
`b"AnchorPQ-v1-IntegrityVerification"`. -/
def default_info : List Nat := utf8Bytes "AnchorPQ-v1-IntegrityVerification"

/-- HKDF extract step (RFC 5869): PRK = HMAC(salt, IKM). -/
def hkdf_extract (hmac : List Nat → List Nat → List Nat)
    (salt ikm : List Nat) : List Nat :=
  hmac salt ikm

/-- HKDF expand blocks T(1), ..., T(n) (RFC 5869): returns the
concatenation of the first `n` blocks together with the last block. -/
def hkdf_blocks (hmac : List Nat → List Nat → List Nat)
    (prk info : List Nat) : Nat → List Nat × List Nat
  | 0 => ([], [])
  | n + 1 =>
    let p := hkdf_blocks hmac prk info n
    let t := hmac prk (p.2 ++ info ++ [n + 1])
    (p.1 ++ t, t)

/-- HKDF expand (RFC 5869): first `length` bytes of T(1) ‖ T(2) ‖ ...,
where the block count is `⌈length / hashLen⌉`. -/
def hkdf_expand (hmac : List Nat → List Nat → List Nat)
    (prk info : List Nat) (hashLen length : Nat) : List Nat :=
  ((hkdf_blocks hmac prk info ((length + hashLen - 1) / hashLen)).1).take length

/-- Full HKDF as the `cryptography` library's `HKDF(...).derive` runs it
with `salt=None`: the salt defaults to `hashLen` zero bytes. -/
def hkdf_derive (hmac : List Nat → List Nat → List Nat)
    (hashLen length : Nat) (info ikm : List Nat) : List Nat :=
  hkdf_expand hmac (hkdf_extract hmac (List.replicate hashLen 0) ikm) info hashLen length

/-- `derive_aes_key(shared_secret, info)`: HKDF with `algorithm =
hashes.SHA256()` (hash length 32), `length=32`, `salt=None`, applied to
the shared secret. -/
def derive_aes_key (env : CryptoEnv) (shared_secret info : List Nat) : List Nat :=
  hkdf_derive env.hmac_sha256 32 32 info shared_secret

/-- Modelled from the spec: the server's documented derivation, identical
HKDF but over SHA3-256 (hash length 32); the server code is not in this
source tree. -/
def server_derive_key (env : CryptoEnv) (shared_secret info : List Nat) : List Nat :=
  hkdf_derive env.hmac_sha3_256 32 32 info shared_secret

/-- The integrity payload dictionary built in step 4 of
`create_verification_request`, with its four fields in insertion order. -/
structure IntegrityPayload where
  merkleRoot : String
  version : String
  variant : String
  signerFingerprint : String
deriving DecidableEq

/-- Lowercase hexadecimal digit for a value below 16. -/
def hexDigit (n : Nat) : Char :=
  if n < 10 then Char.ofNat (48 + n) else Char.ofNat (87 + n)

/-- A `\uXXXX` JSON escape for a 16-bit value. -/
def jsonU4 (n : Nat) : List Char :=
  ['\\', 'u', hexDigit (n / 4096 % 16), hexDigit (n / 256 % 16),
   hexDigit (n / 16 % 16), hexDigit (n % 16)]

/-- JSON escaping of one character as CPython's `json.dumps` (default
`ensure_ascii=True`) performs it: two-character shortcuts for the common
escapes, `\uXXXX` for other control and all non-ASCII characters
(surrogate pairs above the BMP), the character itself otherwise. -/
def json_escape_char (c : Char) : List Char :=
  if c = '"' then ['\\', '"']
  else if c = '\\' then ['\\', '\\']
  else if c = Char.ofNat 8 then ['\\', 'b']
  else if c = Char.ofNat 9 then ['\\', 't']
  else if c = Char.ofNat 10 then ['\\', 'n']
  else if c = Char.ofNat 12 then ['\\', 'f']
  else if c = Char.ofNat 13 then ['\\', 'r']
  else if c.toNat < 32 ∨ 127 ≤ c.toNat then
    if c.toNat < 65536 then jsonU4 c.toNat
    else jsonU4 (55296 + (c.toNat - 65536) / 1024) ++ jsonU4 (56320 + (c.toNat - 65536) % 1024)
  else [c]

/-- A JSON string literal: quote, escaped characters, quote. -/
def json_string (s : String) : List Char :=
  '"' :: s.data.foldr (fun c acc => json_escape_char c ++ acc) ['"']

/-- One `"key": value` member of a JSON object with a string value. -/
def json_member (k v : String) : List Char :=
  json_string k ++ [':', ' '] ++ json_string v

/-- `json.dumps(payload)` for the four-field payload dictionary: the
object in insertion order with the default `", "` / `": "` separators. -/
def json_dumps_payload (p : IntegrityPayload) : String :=
  String.mk ([Char.ofNat 123] ++
    json_member "merkleRoot" p.merkleRoot ++ [',', ' '] ++
    json_member "version" p.version ++ [',', ' '] ++
    json_member "variant" p.variant ++ [',', ' '] ++
    json_member "signerFingerprint" p.signerFingerprint ++ [Char.ofNat 125])

/-- The standard base64 alphabet used by `base64.b64encode`. -/
def b64alphabet : List Char :=
  "ABCDEFGHIJKLMNOPQRSTUVWXYZabcdefghijklmnopqrstuvwxyz0123456789+/".data

/-- Character for a 6-bit value. -/
def b64char (n : Nat) : Char := b64alphabet.getD n 'A'

/-- Index of a character in the base64 alphabet, if any. -/
def b64charIndex (c : Char) : Option Nat :=
  b64alphabet.findIdx? (fun x => x = c)

/-- `base64.b64encode` on a byte list, three bytes at a time, with `'='`
padding on a final group of one or two bytes. -/
def b64encodeChars : List Nat → List Char
  | [] => []
  | [b1] => [b64char (b1 / 4), b64char (b1 % 4 * 16), '=', '=']
  | [b1, b2] =>
    [b64char (b1 / 4), b64char (b1 % 4 * 16 + b2 / 16), b64char (b2 % 16 * 4), '=']
  | b1 :: b2 :: b3 :: rest =>
    b64char (b1 / 4) :: b64char (b1 % 4 * 16 + b2 / 16) ::
      b64char (b2 % 16 * 4 + b3 / 64) :: b64char (b3 % 64) :: b64encodeChars rest

/-- `base64.b64encode(...).decode('utf-8')` as a string. -/
def b64encode (bs : List Nat) : String := String.mk (b64encodeChars bs)

/-- `base64.b64decode` on properly padded input: four characters at a
time, rejecting anything outside the alphabet or padded groups that are
not final. -/
def b64decodeChars : List Char → Option (List Nat)
  | [] => some []
  | c1 :: c2 :: c3 :: c4 :: rest =>
    match b64charIndex c1, b64charIndex c2 with
    | some n1, some n2 =>
      if c3 = '=' then
        if c4 = '=' ∧ rest = [] then some [n1 * 4 + n2 / 16] else none
      else
        match b64charIndex c3 with
        | some n3 =>
          if c4 = '=' then
            if rest = [] then some [n1 * 4 + n2 / 16, n2 % 16 * 16 + n3 / 4] else none
          else
            match b64charIndex c4 with
            | some n4 =>
              (b64decodeChars rest).map
                (fun tail => (n1 * 4 + n2 / 16) :: (n2 % 16 * 16 + n3 / 4) ::
                  (n3 % 4 * 64 + n4) :: tail)
            | none => none
        | none => none
    | _, _ => none
  | _ => none

/-- `base64.b64decode` on a transported string. -/
def b64decode (s : String) : Option (List Nat) := b64decodeChars s.data

/-- `encrypt_payload(key, payload)`: serializes the payload with
`json.dumps(...).encode('utf-8')`, draws a fresh 12-byte IV from the
random stream, encrypts with AES-256-GCM, and returns
IV ‖ ciphertext-with-embedded-tag together with the rest of the stream. -/
def encrypt_payload (env : CryptoEnv) (key : List Nat) (payload : IntegrityPayload)
    (stream : List Nat) : List Nat × List Nat :=
  let plaintext := utf8Bytes (json_dumps_payload payload)
  let r := token_bytes 12 stream
  let ciphertext := env.aesgcm_encrypt key r.1 plaintext
  (r.1 ++ ciphertext, r.2)

/-- JSON values appearing in the request dictionary. -/
inductive JsonVal
  | str : String → JsonVal
  | num : Nat → JsonVal
deriving DecidableEq

/-- `create_verification_request(merkle_root, version, variant,
signer_fingerprint)`: encapsulates against the fetched server public key,
derives the AES key, builds the four-field payload, encrypts it, and
returns the request dictionary with exactly the keys `encapsulatedKey`,
`encryptedPayload` (base64 of the binary fields) and `timestamp`
(`int(time.time() * 1000)`, passed in here as `now_ms`). -/
def create_verification_request (env : CryptoEnv) (server_public_key_b64 : String)
    (merkle_root version variant signer_fingerprint : String)
    (stream : List Nat) (now_ms : Nat) : List (String × JsonVal) :=
  let enc := simulate_mlkem_encapsulation server_public_key_b64 stream
  let encapsulated_key := enc.1.1
  let shared_secret := enc.1.2
  let aes_key := derive_aes_key env shared_secret default_info
  let payload : IntegrityPayload :=
    ⟨merkle_root, version, variant, signer_fingerprint⟩
  let ep := encrypt_payload env aes_key payload enc.2
  [("encapsulatedKey", JsonVal.str (b64encode encapsulated_key)),
   ("encryptedPayload", JsonVal.str (b64encode ep.1)),
   ("timestamp", JsonVal.num now_ms)]

/-- Is `c` a hexadecimal digit? -/
def isHexChar (c : Char) : Bool :=
  c.isDigit || ('a' ≤ c && c ≤ 'f') || ('A' ≤ c && c ≤ 'F')

/-- Is `s` a 64-character hexadecimal string? -/
def is64Hex (s : String) : Bool :=
  s.data.length = 64 && s.data.all isHexChar

/-- Spec-side validation of `IntegrityPayload`, following the spec's
words (fixed-length hex checks on `merkleRoot` and `signerFingerprint`,
non-empty `version`, `variant` in the fixed allowed set, given here as a
parameter). This is the property the spec says the client enforces before
encryption; it is stated here to be compared with what
`create_verification_request` does. -/
def spec_validate_payload (allowed : List String) (p : IntegrityPayload) : Bool :=
  is64Hex p.merkleRoot && is64Hex p.signerFingerprint &&
    !p.version.isEmpty && allowed.contains p.variant

/-- The KEM round-trip property the spec states, instantiated to the
client's encapsulation: some decapsulation function (for the key pair of
the run) recovers the returned shared secret from the returned
encapsulated key on every run. -/
def kem_roundtrip_claim : Prop :=
  ∃ dec : List Nat → List Nat, ∀ (pk : String) (stream : List Nat),
    dec (simulate_mlkem_encapsulation pk stream).1.1 =
      (simulate_mlkem_encapsulation pk stream).1.2

/-- A concrete environment instantiation used by closed theorems: the two
HMACs are constant functions with the 32-byte output length of SHA-256 and
SHA3-256 (chosen distinct, as the real hashes differ), and AES-GCM is the
empty-output stub. -/
def envZ : CryptoEnv :=
  ⟨fun _ _ => List.replicate 32 0, fun _ _ => List.replicate 32 1, fun _ _ _ => []⟩

theorem b64charIndex_b64char_fin : ∀ n : Fin 64, b64charIndex (b64char n.val) = some n.val := by
  decide

theorem b64charIndex_b64char (n : Nat) (h : n < 64) :
    b64charIndex (b64char n) = some n :=
  b64charIndex_b64char_fin ⟨n, h⟩

theorem b64char_ne_pad_fin : ∀ n : Fin 64, b64char n.val ≠ '=' := by decide

theorem b64char_ne_pad (n : Nat) (h : n < 64) : b64char n ≠ '=' :=
  b64char_ne_pad_fin ⟨n, h⟩

theorem b64decodeChars_b64encodeChars : ∀ bs : List Nat, (∀ b ∈ bs, b < 256) →
    b64decodeChars (b64encodeChars bs) = some bs
  | [], _ => rfl
  | [b1], h => by
    have hb1 : b1 < 256 := h b1 (by simp)
    have e1 := b64charIndex_b64char (b1 / 4) (by omega)
    have e2 := b64charIndex_b64char (b1 % 4 * 16) (by omega)
    simp [b64encodeChars, b64decodeChars, e1, e2]
    omega
  | [b1, b2], h => by
    have hb1 : b1 < 256 := h b1 (by simp)
    have hb2 : b2 < 256 := h b2 (by simp)
    have e1 := b64charIndex_b64char (b1 / 4) (by omega)
    have e2 := b64charIndex_b64char (b1 % 4 * 16 + b2 / 16) (by omega)
    have e3 := b64charIndex_b64char (b2 % 16 * 4) (by omega)
    have n3 := b64char_ne_pad (b2 % 16 * 4) (by omega)
    simp [b64encodeChars, b64decodeChars, e1, e2, e3, n3]
    omega
  | b1 :: b2 :: b3 :: rest, h => by
    have hb1 : b1 < 256 := h b1 (by simp)
    have hb2 : b2 < 256 := h b2 (by simp)
    have hb3 : b3 < 256 := h b3 (by simp)
    have ih := b64decodeChars_b64encodeChars rest (fun b hb => h b (by simp [hb]))
    have e1 := b64charIndex_b64char (b1 / 4) (by omega)
    have e2 := b64charIndex_b64char (b1 % 4 * 16 + b2 / 16) (by omega)
    have e3 := b64charIndex_b64char (b2 % 16 * 4 + b3 / 64) (by omega)
    have e4 := b64charIndex_b64char (b3 % 64) (by omega)
    have n3 := b64char_ne_pad (b2 % 16 * 4 + b3 / 64) (by omega)
    have n4 := b64char_ne_pad (b3 % 64) (by omega)
    simp [b64encodeChars, b64decodeChars, e1, e2, e3, e4, n3, n4, ih]
    omega

theorem b64decode_b64encode (bs : List Nat) (h : ∀ b ∈ bs, b < 256) :
    b64decode (b64encode bs) = some bs :=
  b64decodeChars_b64encodeChars bs h

theorem derive_aes_key_length (env : CryptoEnv) (ss info : List Nat)
    (hh : ∀ k m, (env.hmac_sha256 k m).length = 32) :
    (derive_aes_key env ss info).length = 32 := by
  have h1 : (32 + 32 - 1) / 32 = 1 := by norm_num
  simp [derive_aes_key, hkdf_derive, hkdf_expand, h1, hkdf_blocks, hkdf_extract, hh]

/-- Claim C1 (code bug): `derive_aes_key` instantiates HKDF with SHA-256
while its own docstring and the server's documented derivation use
HKDF-SHA3-256; the two hash identifiers differ, and for an environment
where the two HMACs differ the client-derived key differs from the
server-derived key on the same shared secret and context. -/
theorem C1_hash_mismatch :
    client_kdf_hash = HashAlg.sha256 ∧ server_kdf_hash = HashAlg.sha3_256 ∧
    client_kdf_hash ≠ server_kdf_hash ∧
    derive_aes_key envZ (List.replicate 32 0) default_info ≠
      server_derive_key envZ (List.replicate 32 0) default_info := by
  refine ⟨rfl, rfl, by decide, by decide⟩

/-- Claim C2, counterexample: on an input whose `merkleRoot` is the
two-character non-hex string `"zz"` — rejected by the spec's validation —
`create_verification_request` does not fail: it still produces the full
three-field request, with an encrypted payload present (here the base64
of the 12-byte IV, under the stub AEAD). So no `ValidationError` is
raised before encryption. -/
theorem C2_counterexample :
    spec_validate_payload ["release"]
      ⟨"zz", "1.0.0", "release",
        "fedcba0987654321fedcba0987654321fedcba0987654321fedcba09876543fe"⟩ = false ∧
    (create_verification_request envZ "pk" "zz" "1.0.0" "release"
        "fedcba0987654321fedcba0987654321fedcba0987654321fedcba09876543fe"
        (List.replicate 1132 0) 7).map Prod.fst =
      ["encapsulatedKey", "encryptedPayload", "timestamp"] ∧
    (create_verification_request envZ "pk" "zz" "1.0.0" "release"
        "fedcba0987654321fedcba0987654321fedcba0987654321fedcba09876543fe"
        (List.replicate 1132 0) 7).lookup "encryptedPayload" =
      some (JsonVal.str "AAAAAAAAAAAAAAAA") :=
  ⟨by decide, rfl, by decide⟩

/-- Claim C2, amended: `create_verification_request` performs no
validation of the payload fields: even when the spec-side validation
predicate rejects the input, the function encrypts the payload and
returns the complete request. -/
theorem C2_no_validation (env : CryptoEnv) (allowed : List String) (pk m v var sf : String)
    (stream : List Nat) (now : Nat)
    (hinvalid : spec_validate_payload allowed ⟨m, v, var, sf⟩ = false) :
    (create_verification_request env pk m v var sf stream now).map Prod.fst =
      ["encapsulatedKey", "encryptedPayload", "timestamp"] ∧
    (create_verification_request env pk m v var sf stream now).lookup "encryptedPayload" =
      some (JsonVal.str (b64encode (((stream.drop 1088).drop 32).take 12 ++
        env.aesgcm_encrypt (derive_aes_key env ((stream.drop 1088).take 32) default_info)
          (((stream.drop 1088).drop 32).take 12)
          (utf8Bytes (json_dumps_payload ⟨m, v, var, sf⟩))))) :=
  ⟨rfl, rfl⟩

/-- Witness for the amended claim C2 at the concrete invalid input of the
counterexample's shape with the empty random stream. -/
theorem C2_no_validation_witness :
    spec_validate_payload ["release"] ⟨"zz", "1.0.0", "release", "zz"⟩ = false ∧
    ((create_verification_request envZ "pk" "zz" "1.0.0" "release" "zz" [] 3).map Prod.fst =
      ["encapsulatedKey", "encryptedPayload", "timestamp"] ∧
    (create_verification_request envZ "pk" "zz" "1.0.0" "release" "zz" [] 3).lookup
        "encryptedPayload" =
      some (JsonVal.str (b64encode (((([] : List Nat).drop 1088).drop 32).take 12 ++
        envZ.aesgcm_encrypt
          (derive_aes_key envZ ((([] : List Nat).drop 1088).take 32) default_info)
          (((([] : List Nat).drop 1088).drop 32).take 12)
          (utf8Bytes (json_dumps_payload ⟨"zz", "1.0.0", "release", "zz"⟩)))))) :=
  ⟨by decide, C2_no_validation envZ ["release"] "pk" "zz" "1.0.0" "release" "zz" [] 3 (by decide)⟩

/-- Claim C3, counterexample: the round-trip property fails for the
client's simulated encapsulation: no decapsulation function recovers the
returned shared secret from the returned encapsulated key on every run,
because two random streams that agree on the first 1088 bytes (the
ciphertext) can disagree on the next 32 (the secret). -/
theorem C3_counterexample : ¬ kem_roundtrip_claim := by
  rintro ⟨dec, hdec⟩
  have h1 := hdec "" (List.replicate 1120 0)
  have h2 := hdec "" (List.replicate 1088 0 ++ List.replicate 32 1)
  have hct : (simulate_mlkem_encapsulation "" (List.replicate 1120 0)).1.1 =
      (simulate_mlkem_encapsulation ""
        (List.replicate 1088 0 ++ List.replicate 32 1)).1.1 := by decide
  have hss : (simulate_mlkem_encapsulation "" (List.replicate 1120 0)).1.2 ≠
      (simulate_mlkem_encapsulation ""
        (List.replicate 1088 0 ++ List.replicate 32 1)).1.2 := by decide
  exact hss (by rw [← h1, hct, h2])

/-- Claim C3, amended: the simulated encapsulation draws the encapsulated
key and the shared secret as independent segments of the random stream
(first 1088 bytes and next 32 bytes), and consequently every candidate
decapsulation function fails the round trip on some run. -/
theorem C3_simulation_no_roundtrip :
    (∀ (pk : String) (stream : List Nat),
      simulate_mlkem_encapsulation pk stream =
        ((stream.take 1088, (stream.drop 1088).take 32), (stream.drop 1088).drop 32)) ∧
    (∀ dec : List Nat → List Nat, ∃ (pk : String) (stream : List Nat),
      dec (simulate_mlkem_encapsulation pk stream).1.1 ≠
        (simulate_mlkem_encapsulation pk stream).1.2) := by
  constructor
  · intro pk stream; rfl
  · intro dec
    by_cases h : dec (List.replicate 1088 0) = List.replicate 32 0
    · refine ⟨"", List.replicate 1088 0 ++ List.replicate 32 1, ?_⟩
      have e1 : (simulate_mlkem_encapsulation ""
          (List.replicate 1088 0 ++ List.replicate 32 1)).1.1 = List.replicate 1088 0 := by
        decide
      have e2 : (simulate_mlkem_encapsulation ""
          (List.replicate 1088 0 ++ List.replicate 32 1)).1.2 = List.replicate 32 1 := by
        decide
      rw [e1, e2, h]
      decide
    · refine ⟨"", List.replicate 1120 0, ?_⟩
      have e1 : (simulate_mlkem_encapsulation "" (List.replicate 1120 0)).1.1 =
          List.replicate 1088 0 := by decide
      have e2 : (simulate_mlkem_encapsulation "" (List.replicate 1120 0)).1.2 =
          List.replicate 32 0 := by decide
      rw [e1, e2]
      exact h

/-- Claim C4: `encrypt_payload` returns exactly nonce ‖ AEAD ciphertext
(tag embedded by the AEAD), where the nonce is the 12 bytes (96 bits) of
fresh randomness drawn on that call — a function of the per-call random
stream only, not of any counter, key or payload. -/
theorem C4_encrypt_format (env : CryptoEnv) (key : List Nat) (p : IntegrityPayload)
    (stream : List Nat) (h : 12 ≤ stream.length) :
    (encrypt_payload env key p stream).1 =
      stream.take 12 ++
        env.aesgcm_encrypt key (stream.take 12) (utf8Bytes (json_dumps_payload p)) ∧
    (stream.take 12).length = 12 := by
  refine ⟨rfl, ?_⟩
  simp [List.length_take]
  omega

/-- Witness for claim C4 on a concrete 12-byte stream. -/
theorem C4_encrypt_format_witness :
    12 ≤ (List.replicate 12 (0 : Nat)).length ∧
    ((encrypt_payload envZ [] ⟨"a", "b", "c", "d"⟩ (List.replicate 12 0)).1 =
      (List.replicate 12 (0 : Nat)).take 12 ++
        envZ.aesgcm_encrypt [] ((List.replicate 12 (0 : Nat)).take 12)
          (utf8Bytes (json_dumps_payload ⟨"a", "b", "c", "d"⟩)) ∧
      ((List.replicate 12 (0 : Nat)).take 12).length = 12) :=
  ⟨by simp, C4_encrypt_format envZ [] ⟨"a", "b", "c", "d"⟩ (List.replicate 12 0) (by simp)⟩

/-- Claim C5: the timestamp travels in clear text outside the encrypted
envelope: the plaintext handed to the AEAD is exactly the JSON of the
four payload fields (no timestamp), the request carries the timestamp as
a top-level unencrypted field, and the encrypted payload does not depend
on the timestamp at all. -/
theorem C5_timestamp_clear (env : CryptoEnv) (pk m v var sf : String)
    (stream : List Nat) (now now2 : Nat) :
    (create_verification_request env pk m v var sf stream now).lookup "timestamp" =
      some (JsonVal.num now) ∧
    (create_verification_request env pk m v var sf stream now).lookup "encryptedPayload" =
      some (JsonVal.str (b64encode (((stream.drop 1088).drop 32).take 12 ++
        env.aesgcm_encrypt (derive_aes_key env ((stream.drop 1088).take 32) default_info)
          (((stream.drop 1088).drop 32).take 12)
          (utf8Bytes (json_dumps_payload ⟨m, v, var, sf⟩))))) ∧
    (create_verification_request env pk m v var sf stream now).lookup "encryptedPayload" =
      (create_verification_request env pk m v var sf stream now2).lookup "encryptedPayload" :=
  ⟨rfl, rfl, rfl⟩

/-- Claim C6: per run, the encapsulated key is exactly 1088 bytes (the
ML-KEM-768 ciphertext size), the shared secret exactly 32 bytes, and the
derived AES key exactly 32 bytes, for any HMAC with the 32-byte SHA-256
output length. -/
theorem C6_fixed_lengths (env : CryptoEnv) (pk : String) (stream : List Nat)
    (hs : 1120 ≤ stream.length)
    (hh : ∀ k m, (env.hmac_sha256 k m).length = 32) :
    ((simulate_mlkem_encapsulation pk stream).1.1).length = 1088 ∧
    ((simulate_mlkem_encapsulation pk stream).1.2).length = 32 ∧
    (derive_aes_key env (simulate_mlkem_encapsulation pk stream).1.2
      default_info).length = 32 := by
  refine ⟨?_, ?_, derive_aes_key_length env _ _ hh⟩
  · simp [simulate_mlkem_encapsulation, token_bytes]
    omega
  · simp [simulate_mlkem_encapsulation, token_bytes]
    omega

/-- Witness for claim C6 on a concrete 1120-byte stream. -/
theorem C6_fixed_lengths_witness :
    1120 ≤ (List.replicate 1120 (0 : Nat)).length ∧
    (((simulate_mlkem_encapsulation "pk" (List.replicate 1120 0)).1.1).length = 1088 ∧
     ((simulate_mlkem_encapsulation "pk" (List.replicate 1120 0)).1.2).length = 32 ∧
     (derive_aes_key envZ (simulate_mlkem_encapsulation "pk" (List.replicate 1120 0)).1.2
        default_info).length = 32) :=
  ⟨by simp, C6_fixed_lengths envZ "pk" (List.replicate 1120 0) (by simp)
      (fun k m => by simp [envZ])⟩

/-- Claim C7: key derivation is deterministic and pure: two calls of
`derive_aes_key` with equal shared secret and context arguments return
equal keys (the embedding takes no random stream — the source function
consumes no randomness and has no state). -/
theorem C7_derivation_deterministic (env : CryptoEnv) (s1 s2 i1 i2 : List Nat)
    (hs : s1 = s2) (hi : i1 = i2) :
    derive_aes_key env s1 i1 = derive_aes_key env s2 i2 := by
  rw [hs, hi]

/-- Witness for claim C7 on a concrete shared secret and the default
context. -/
theorem C7_derivation_deterministic_witness :
    ([5] : List Nat) = [5] ∧ default_info = default_info ∧
    derive_aes_key envZ [5] default_info = derive_aes_key envZ [5] default_info :=
  ⟨rfl, rfl, C7_derivation_deterministic envZ [5] [5] default_info default_info rfl rfl⟩

/-- Claim C8: the request's `encapsulatedKey` and `encryptedPayload`
fields are the base64 encoding of the binary fields, decoding recovers
the original bytes exactly, and the `timestamp` field is the integer
millisecond clock value. -/
theorem C8_reversible_encoding (env : CryptoEnv) (pk m v var sf : String)
    (stream : List Nat) (now : Nat)
    (hstream : ∀ b ∈ stream, b < 256)
    (haead : ∀ k n p b, b ∈ env.aesgcm_encrypt k n p → b < 256) :
    (create_verification_request env pk m v var sf stream now).lookup "encapsulatedKey" =
      some (JsonVal.str (b64encode (stream.take 1088))) ∧
    b64decode (b64encode (stream.take 1088)) = some (stream.take 1088) ∧
    (create_verification_request env pk m v var sf stream now).lookup "encryptedPayload" =
      some (JsonVal.str (b64encode (((stream.drop 1088).drop 32).take 12 ++
        env.aesgcm_encrypt (derive_aes_key env ((stream.drop 1088).take 32) default_info)
          (((stream.drop 1088).drop 32).take 12)
          (utf8Bytes (json_dumps_payload ⟨m, v, var, sf⟩))))) ∧
    b64decode (b64encode (((stream.drop 1088).drop 32).take 12 ++
        env.aesgcm_encrypt (derive_aes_key env ((stream.drop 1088).take 32) default_info)
          (((stream.drop 1088).drop 32).take 12)
          (utf8Bytes (json_dumps_payload ⟨m, v, var, sf⟩)))) =
      some (((stream.drop 1088).drop 32).take 12 ++
        env.aesgcm_encrypt (derive_aes_key env ((stream.drop 1088).take 32) default_info)
          (((stream.drop 1088).drop 32).take 12)
          (utf8Bytes (json_dumps_payload ⟨m, v, var, sf⟩))) ∧
    (create_verification_request env pk m v var sf stream now).lookup "timestamp" =
      some (JsonVal.num now) := by
  refine ⟨rfl, ?_, rfl, ?_, rfl⟩
  · exact b64decode_b64encode _ (fun b hb => hstream b (List.take_subset _ _ hb))
  · refine b64decode_b64encode _ (fun b hb => ?_)
    rcases List.mem_append.mp hb with hiv | hct
    · exact hstream b (List.drop_subset _ _ (List.drop_subset _ _ (List.take_subset _ _ hiv)))
    · exact haead _ _ _ b hct

/-- Witness for claim C8 with the empty random stream and the stub
environment. -/
theorem C8_reversible_encoding_witness :
    (∀ b ∈ ([] : List Nat), b < 256) ∧
    (∀ k n p b, b ∈ envZ.aesgcm_encrypt k n p → b < 256) ∧
    ((create_verification_request envZ "pk" "m" "v" "var" "sf" [] 9).lookup "encapsulatedKey" =
      some (JsonVal.str (b64encode (([] : List Nat).take 1088))) ∧
    b64decode (b64encode (([] : List Nat).take 1088)) = some (([] : List Nat).take 1088) ∧
    (create_verification_request envZ "pk" "m" "v" "var" "sf" [] 9).lookup "encryptedPayload" =
      some (JsonVal.str (b64encode (((([] : List Nat).drop 1088).drop 32).take 12 ++
        envZ.aesgcm_encrypt
          (derive_aes_key envZ ((([] : List Nat).drop 1088).take 32) default_info)
          (((([] : List Nat).drop 1088).drop 32).take 12)
          (utf8Bytes (json_dumps_payload ⟨"m", "v", "var", "sf"⟩))))) ∧
    b64decode (b64encode (((([] : List Nat).drop 1088).drop 32).take 12 ++
        envZ.aesgcm_encrypt
          (derive_aes_key envZ ((([] : List Nat).drop 1088).take 32) default_info)
          (((([] : List Nat).drop 1088).drop 32).take 12)
          (utf8Bytes (json_dumps_payload ⟨"m", "v", "var", "sf"⟩)))) =
      some (((([] : List Nat).drop 1088).drop 32).take 12 ++
        envZ.aesgcm_encrypt
          (derive_aes_key envZ ((([] : List Nat).drop 1088).take 32) default_info)
          (((([] : List Nat).drop 1088).drop 32).take 12)
          (utf8Bytes (json_dumps_payload ⟨"m", "v", "var", "sf"⟩))) ∧
    (create_verification_request envZ "pk" "m" "v" "var" "sf" [] 9).lookup "timestamp" =
      some (JsonVal.num 9)) :=
  ⟨by simp, fun k n p b hb => by simp [envZ] at hb,
    C8_reversible_encoding envZ "pk" "m" "v" "var" "sf" [] 9 (by simp)
      (fun k n p b hb => by simp [envZ] at hb)⟩

/-- Claim C9: the simulated encapsulation never reads the server's public
key: runs over the same random stream with different public keys return
identical results. -/
theorem C9_public_key_independent (pk1 pk2 : String) (stream : List Nat) :
    simulate_mlkem_encapsulation pk1 stream = simulate_mlkem_encapsulation pk2 stream := rfl

/-- Claim C10: every request dictionary contains exactly the three keys
`encapsulatedKey`, `encryptedPayload` and `timestamp`, in that order, and
never a `keyId` key. -/
theorem C10_request_fields (env : CryptoEnv) (pk m v var sf : String)
    (stream : List Nat) (now_ms : Nat) :
    (create_verification_request env pk m v var sf stream now_ms).map Prod.fst =
      ["encapsulatedKey", "encryptedPayload", "timestamp"] ∧
    (create_verification_request env pk m v var sf stream now_ms).lookup "keyId" = none :=
  ⟨rfl, rfl⟩

end AnchorPQ
